import Mathlib

/-!
Shallow embedding of the chirpstack-udp-forwarder sources (src/structs.rs,
src/forwarder.rs) used to check the natural-language specification.

Machine integers are modelled as `Nat`/`Int` with explicit `% 2^w` at the
points where the Rust code casts or may wrap (release semantics).  Fallible
Rust functions returning `Result` are modelled with `Except String`; code
paths that can panic (slice `copy_from_slice` with mismatched length,
`Option::unwrap` on `None`) are modelled with an explicit `panic` outcome.
`f32`/`f64` values that only flow through arithmetic and JSON emission are
modelled as `ℚ`.  serde_json values are modelled as an ordered tree
(`Json` below); `#[derive(Serialize)]` emits the fields in declaration
order, which the `toJson` functions mirror.
-/

namespace ChirpstackUdpForwarder

/-- serde_json's internal number representation: an unsigned 64-bit integer
(`PosInt`), a negative 64-bit integer (`NegInt`), or a double (`Float`,
modelled as a rational).  `as_u64` returns a value only for `PosInt`. -/
inductive JNum where
  | uint (n : Nat)
  | int (i : Int)
  | float (q : ℚ)
deriving DecidableEq, Repr

/-- Model of `serde_json::Number::as_u64`: `Some` exactly for the `PosInt`
representation. -/
def JNum.asU64 : JNum → Option Nat
  | .uint n => some n
  | _ => none

/-- Ordered JSON value tree as produced by serde serialization (object keys
keep declaration order). -/
inductive Json where
  | null
  | bool (b : Bool)
  | num (n : JNum)
  | str (s : String)
  | arr (xs : List Json)
  | obj (kvs : List (String × Json))
deriving Repr

/-- Look up a key of a JSON object (`none` for non-objects or missing keys). -/
def Json.lookupKey : Json → String → Option Json
  | .obj kvs, k => kvs.lookup k
  | _, _ => none

/-- The keys of a JSON object, in emission order. -/
def Json.objKeys : Json → List String
  | .obj kvs => kvs.map Prod.fst
  | _ => []

/-- Outcome of running a piece of Rust code that may also panic. -/
inductive PResult (α : Type) where
  | panic
  | ok (a : α)
  | err (e : String)
deriving DecidableEq, Repr

/-- `structs.rs` line 13: `pub enum CRC { OK }` — the only variant. -/
inductive CRC where
  | ok
deriving DecidableEq, Repr

/-- `impl Serialize for CRC` (structs.rs lines 17-26): `CRC::OK` serializes
as the integer 1. -/
def CRC.toJson : CRC → Json
  | .ok => .num (.uint 1)

/-- `structs.rs` line 28: modulation identifier. -/
inductive Modulation where
  | loRa
  | fsk
deriving DecidableEq, Repr

/-- `impl Serialize for Modulation` (structs.rs lines 33-43). -/
def Modulation.toJson : Modulation → Json
  | .loRa => .str ("LORA")
  | .fsk => .str ("FSK")

/-- `structs.rs` line 59: `pub enum DataRate { LoRa(u32, u32), FSK(u32) }`. -/
inductive DataRate where
  | loRa (sf : Nat) (bw : Nat)
  | fsk (bitrate : Nat)
deriving DecidableEq, Repr

/-- `impl Serialize for DataRate` (structs.rs lines 64-74): a LoRa rate
serializes as the string `SF{sf}BW{bw/1000}`, an FSK rate as the bitrate
number. -/
def DataRate.toJson : DataRate → Json
  | .loRa sf bw => .str ("SF" ++ toString sf ++ "BW" ++ toString (bw / 1000))
  | .fsk bitrate => .num (.uint bitrate)

/-- `structs.rs` line 114: coding rate enum. -/
inductive CodeRate where
  | undefined
  | loRa4_5
  | loRa4_6
  | loRa4_7
  | loRa4_8
deriving DecidableEq, Repr

/-- `impl Serialize for CodeRate` (structs.rs lines 122-135): the four
known rates serialize as their strings, `Undefined` as `null`
(`serialize_none`). -/
def CodeRate.toJson : CodeRate → Json
  | .loRa4_5 => .str ("4/5")
  | .loRa4_6 => .str ("4/6")
  | .loRa4_7 => .str ("4/7")
  | .loRa4_8 => .str ("4/8")
  | .undefined => .null

/-- `impl Deserialize for CodeRate` (structs.rs lines 137-151): the four
known strings map to their rates, anything else to `Undefined`. -/
def CodeRate.fromString (s : String) : CodeRate :=
  if s = "4/5" then .loRa4_5
  else if s = "4/6" then .loRa4_6
  else if s = "4/7" then .loRa4_7
  else if s = "4/8" then .loRa4_8
  else .undefined

/-- Rust `str::split(char::is_alphabetic)` on a character list: every
matching character is a separator; `n` separators produce `n+1` segments,
empty segments included.  (The Rust predicate is Unicode-alphabetic; the
datarate strings involved are ASCII, modelled with `Char.isAlpha`.) -/
def splitAlphabetic : List Char → List (List Char)
  | [] => [[]]
  | c :: rest =>
    let r := splitAlphabetic rest
    if c.isAlpha then [] :: r
    else
      match r with
      | [] => [[c]]
      | h :: t => (c :: h) :: t

/-- Digits of a decimal numeral; `none` on an empty list or any
non-digit character. -/
def parseDigits : List Char → Option Nat
  | [] => none
  | cs => cs.foldl (fun acc c =>
      match acc with
      | none => none
      | some v => if c.isDigit then some (v * 10 + (c.toNat - 48)) else none)
      (some 0)

/-- Rust `str::parse::<u32>`: an optional leading `+`, then one or more
decimal digits, value at most `u32::MAX`. -/
def parseU32 (cs : List Char) : Option Nat :=
  let cs' := match cs with
    | '+' :: rest => rest
    | _ => cs
  match cs' with
  | [] => none
  | _ =>
    match parseDigits cs' with
    | none => none
    | some v => if v < 2 ^ 32 then some v else none

/-- `impl Deserialize for DataRate` (structs.rs lines 76-111).  A JSON
string is split by alphabetic characters and must give exactly 5 segments,
segments 2 and 4 parse as `sf` and `bw` (kHz, scaled by 1000 into the
`u32`, wrapping); a JSON number goes through `as_u64().unwrap()` — a panic
when the number is not representable as `u64` — and is truncated `as u32`;
any other JSON value is an error. -/
def DataRate.deserialize : Json → PResult DataRate
  | .str v =>
    let s := splitAlphabetic v.toList
    if s.length ≠ 5 then .err ("invalid datarate string")
    else
      match parseU32 (s.getD 2 []) with
      | none => .err ("parse sf error")
      | some sf =>
        match parseU32 (s.getD 4 []) with
        | none => .err ("parse bw error")
        | some bw => .ok (.loRa sf (bw * 1000 % 2 ^ 32))
  | .num n =>
    match n.asU64 with
    | some br => .ok (.fsk (br % 2 ^ 32))
    | none => .panic
  | _ => .err ("unexpected type")

/-- `PROTOCOL_VERSION` (structs.rs line 11). -/
def PROTOCOL_VERSION : Nat := 2

/-- `structs.rs` line 377: decoded `PUSH_ACK` body. -/
structure PushAck where
  random_token : Nat
deriving DecidableEq, Repr

/-- `PushAck::from_bytes` (structs.rs lines 381-406): exactly 4 bytes,
byte 0 the protocol version, byte 3 the identifier `0x01`; the token is the
big-endian `u16` of bytes 1..3. -/
def PushAck.from_bytes (b : List Nat) : Except String PushAck :=
  if b.length ≠ 4 then .error ("expected 4 bytes, got: " ++ toString b.length)
  else if b.getD 0 0 ≠ PROTOCOL_VERSION then
    .error ("expected protocol version: 2, got: " ++ toString (b.getD 0 0))
  else if b.getD 3 0 ≠ 1 then .error ("invalid identifier: " ++ toString (b.getD 3 0))
  else .ok ⟨b.getD 1 0 * 256 + b.getD 2 0⟩

/-- `structs.rs` line 425: decoded `PULL_ACK` body. -/
structure PullAck where
  random_token : Nat
deriving DecidableEq, Repr

/-- `PullAck::from_bytes` (structs.rs lines 429-454): exactly 4 bytes,
byte 0 the protocol version, byte 3 the identifier `0x04`; the token is the
big-endian `u16` of bytes 1..3. -/
def PullAck.from_bytes (b : List Nat) : Except String PullAck :=
  if b.length ≠ 4 then .error ("expected 4 bytes, got: " ++ toString b.length)
  else if b.getD 0 0 ≠ PROTOCOL_VERSION then
    .error ("expected protocol version: 2, got: " ++ toString (b.getD 0 0))
  else if b.getD 3 0 ≠ 4 then .error ("invalid identifier: " ++ toString (b.getD 3 0))
  else .ok ⟨b.getD 1 0 * 256 + b.getD 2 0⟩

/-- The well-formed 4-byte acknowledgement frame carrying token `t`
(version byte, big-endian token, identifier). -/
def ackFrame (ident : Nat) (t : Nat) : List Nat :=
  [PROTOCOL_VERSION, t / 256, t % 256, ident]

/-! ### base64 (standard alphabet, padded encode / padding-tolerant decode) -/

/-- The standard base64 alphabet used by the `base64` crate's default config. -/
def base64Alphabet : List Char :=
  "ABCDEFGHIJKLMNOPQRSTUVWXYZabcdefghijklmnopqrstuvwxyz0123456789+/".toList

/-- The alphabet character for a 6-bit value. -/
def b64Char (n : Nat) : Char := base64Alphabet.getD n 'A'

/-- The 6-bit value of an alphabet character, `none` outside the alphabet. -/
def b64Val (c : Char) : Option Nat := base64Alphabet.findIdx? (· = c)

/-- `base64::encode`: 3-byte groups become 4 characters, the final partial
group is padded with `=`. -/
def base64EncodeChunks : List Nat → List Char
  | b0 :: b1 :: b2 :: rest =>
    let n := b0 % 256 * 65536 + b1 % 256 * 256 + b2 % 256
    b64Char (n / 262144) :: b64Char (n / 4096 % 64) :: b64Char (n / 64 % 64) ::
      b64Char (n % 64) :: base64EncodeChunks rest
  | [b0, b1] =>
    let n := b0 % 256 * 65536 + b1 % 256 * 256
    [b64Char (n / 262144), b64Char (n / 4096 % 64), b64Char (n / 64 % 64), '=']
  | [b0] =>
    let n := b0 % 256 * 65536
    [b64Char (n / 262144), b64Char (n / 4096 % 64), '=', '=']
  | [] => []

/-- `base64::encode` as a string. -/
def base64Encode (bs : List Nat) : String := String.mk (base64EncodeChunks bs)

/-- Decode a padding-stripped character list in 4-character groups; a
trailing group of 2 or 3 characters yields 1 or 2 bytes (trailing bits must
be zero); a trailing group of 1 character is invalid. -/
def base64DecodeCore : List Char → Option (List Nat)
  | [] => some []
  | [_] => none
  | [c0, c1] => do
    let v0 ← b64Val c0
    let v1 ← b64Val c1
    if v1 % 16 = 0 then some [v0 * 4 + v1 / 16] else none
  | [c0, c1, c2] => do
    let v0 ← b64Val c0
    let v1 ← b64Val c1
    let v2 ← b64Val c2
    if v2 % 4 = 0 then some [v0 * 4 + v1 / 16, v1 % 16 * 16 + v2 / 4] else none
  | c0 :: c1 :: c2 :: c3 :: rest => do
    let v0 ← b64Val c0
    let v1 ← b64Val c1
    let v2 ← b64Val c2
    let v3 ← b64Val c3
    let r ← base64DecodeCore rest
    some ([v0 * 4 + v1 / 16, v1 % 16 * 16 + v2 / 4, v2 % 4 * 64 + v3] ++ r)

/-- `base64::decode` (standard config): strip up to two trailing `=`
characters, reject `=` anywhere else, then decode. -/
def base64Decode (s : String) : Option (List Nat) :=
  let cs := s.toList
  let pads := (cs.reverse.takeWhile (· = '=')).length
  if pads > 2 then none
  else
    let core := cs.take (cs.length - pads)
    if core.any (· = '=') then none
    else base64DecodeCore core

/-! ### UTC time formatting

`DateTime<Utc>` values are modelled as whole seconds since the Unix epoch
(sub-second precision and the out-of-protobuf-range fallback are not
load-bearing for any claim).  The two chrono format strings of structs.rs
(`%+` and `%Y-%m-%d %H:%M:%S %Z`) are implemented at second resolution via
the standard civil-from-days calendar conversion. -/

/-- Zero-pad a value below 100 to two digits. -/
def pad2 (n : Nat) : String := if n < 10 then "0" ++ toString n else toString n

/-- Convert a day count relative to 1970-01-01 to (year, month, day) in the
proleptic Gregorian calendar. -/
def civilFromDays (z0 : Int) : Int × Nat × Nat :=
  let z := z0 + 719468
  let era : Int := Int.fdiv z 146097
  let doe : Nat := (z - era * 146097).toNat
  let yoe : Nat := (doe - doe / 1460 + doe / 36524 - doe / 146096) / 365
  let y : Int := (yoe : Int) + era * 400
  let doy : Nat := doe - (365 * yoe + yoe / 4 - yoe / 100)
  let mp : Nat := (5 * doy + 2) / 153
  let d : Nat := doy - (153 * mp + 2) / 5 + 1
  let m : Nat := if mp < 10 then mp + 3 else mp - 9
  (if m ≤ 2 then y + 1 else y, m, d)

/-- Split epoch seconds into calendar date and time of day. -/
def ymdhms (t : Int) : Int × Nat × Nat × Nat × Nat × Nat :=
  let days := Int.fdiv t 86400
  let secs := (Int.emod t 86400).toNat
  let c := civilFromDays days
  (c.1, c.2.1, c.2.2, secs / 3600, secs / 60 % 60, secs % 60)

/-- chrono `%+` (compact ISO 8601) at whole-second resolution, e.g.
`1970-01-01T00:00:00+00:00`. -/
def compactTimeFormat (t : Int) : String :=
  let x := ymdhms t
  toString x.1 ++ "-" ++ pad2 x.2.1 ++ "-" ++ pad2 x.2.2.1 ++ "T" ++
    pad2 x.2.2.2.1 ++ ":" ++ pad2 x.2.2.2.2.1 ++ ":" ++ pad2 x.2.2.2.2.2 ++ "+00:00"

/-- chrono `%Y-%m-%d %H:%M:%S %Z` (expanded format), e.g.
`1970-01-01 00:00:00 UTC`. -/
def expandedTimeFormat (t : Int) : String :=
  let x := ymdhms t
  toString x.1 ++ "-" ++ pad2 x.2.1 ++ "-" ++ pad2 x.2.2.1 ++ " " ++
    pad2 x.2.2.2.1 ++ ":" ++ pad2 x.2.2.2.2.1 ++ ":" ++ pad2 x.2.2.2.2.2 ++ " UTC"

/-! ### chirpstack_api gateway message model (the fields the sources consume) -/

/-- `gw.CrcStatus` proto enum. -/
inductive CrcStatus where
  | noCrc
  | badCrc
  | crcOk
deriving DecidableEq, Repr

/-- pbjson `Duration` (seconds/nanos). -/
structure GpsDuration where
  seconds : Int
  nanos : Int
deriving DecidableEq, Repr

/-- `gw.CodeRate` proto enum; the variants beyond 4/5..4/8 (and unknown
wire values, which the prost accessor maps to the default) are collapsed
into `crOther` — the source maps all of them to `CodeRate::Undefined`. -/
inductive GwCodeRate where
  | crUndefined
  | cr45
  | cr46
  | cr47
  | cr48
  | crOther
deriving DecidableEq, Repr

/-- `gw.LoraModulationInfo` (consumed fields). -/
structure LoraModulationInfo where
  bandwidth : Nat
  spreadingFactor : Nat
  codeRate : GwCodeRate
  polarizationInversion : Bool
deriving DecidableEq, Repr

/-- `gw.FskModulationInfo`. -/
structure FskModulationInfo where
  datarate : Nat
  frequencyDeviation : Nat
deriving DecidableEq, Repr

/-- `gw.modulation.Parameters` oneof. -/
inductive ModulationParameters where
  | lora (i : LoraModulationInfo)
  | fsk (i : FskModulationInfo)
  | lrFhss
deriving DecidableEq, Repr

/-- `gw.Modulation`. -/
structure GwModulation where
  parameters : Option ModulationParameters
deriving DecidableEq, Repr

/-- `gw.UplinkRxInfo` (consumed fields; `time` as epoch seconds). -/
structure UplinkRxInfo where
  time : Option Int
  timeSinceGpsEpoch : Option GpsDuration
  rssi : Int
  snr : ℚ
  channel : Nat
  rfChain : Nat
  context : List Nat
  crcStatus : CrcStatus
deriving DecidableEq, Repr

/-- `gw.UplinkTxInfo`. -/
structure UplinkTxInfo where
  frequency : Nat
  modulation : Option GwModulation
deriving DecidableEq, Repr

/-- `gw.UplinkFrame` (consumed fields). -/
structure UplinkFrame where
  rxInfo : Option UplinkRxInfo
  txInfo : Option UplinkTxInfo
  phyPayload : List Nat
deriving DecidableEq, Repr

/-- Big-endian `u32` from a 4-byte context slice (reads with default 0). -/
def u32FromBeBytes (b : List Nat) : Nat :=
  b.getD 0 0 * 16777216 + b.getD 1 0 * 65536 + b.getD 2 0 * 256 + b.getD 3 0

/-- `u32::to_be_bytes`. -/
def u32ToBeBytes (v : Nat) : List Nat :=
  [v / 16777216 % 256, v / 65536 % 256, v / 256 % 256, v % 256]

/-- Code-rate mapping of `RXPK::from_proto` (structs.rs lines 290-296):
4/5..4/8 map across, everything else to `Undefined`. -/
def mapCodeRate : GwCodeRate → CodeRate
  | .cr45 => .loRa4_5
  | .cr46 => .loRa4_6
  | .cr47 => .loRa4_7
  | .cr48 => .loRa4_8
  | _ => .undefined

/-! ### RXPK and its translation from an uplink frame -/

/-- `structs.rs` lines 181-212: the `rxpk` JSON model. -/
structure RXPK where
  time : Int
  tmms : Option Nat
  tmst : Nat
  freq : ℚ
  chan : Nat
  rfch : Nat
  stat : CRC
  modu : Modulation
  datr : DataRate
  codr : Option CodeRate
  rssi : Int
  lsnr : Option ℚ
  size : Nat
  data : String
deriving DecidableEq, Repr

/-- `RXPK::from_proto` (structs.rs lines 214-318).  Returns errors for a
missing `rx_info`/`tx_info`/modulation, `panic` when `rx_info.context` does
not hold exactly 4 bytes (`copy_from_slice` asserts equal lengths), and
otherwise the translated `RXPK`.  The `stat` field is set to `CRC::OK`
unconditionally (line 250); the source never reads `rx_info.crc_status`
here.  In the source, the four matches on `tx_info.modulation` (for
`modu`, `datr`, `codr`, `lsnr`) scrutinise the same immutable value, so
they are collapsed into the single match below; the `context` copy for
`tmst` (line 242-246) is evaluated before those matches, as in the Rust
struct literal. -/
def RXPK.from_proto (now : Int) (up : UplinkFrame) : PResult RXPK :=
  match up.rxInfo with
  | none => .err ("rx_info must not be None")
  | some rxInfo =>
    match up.txInfo with
    | none => .err ("tx_info must not be None")
    | some txInfo =>
      let time : Int := match rxInfo.time with
        | some v => v
        | none => now
      let tmms : Option Nat := rxInfo.timeSinceGpsEpoch.map (fun v =>
        (((v.seconds * 1000).emod (2 ^ 64)).toNat +
          ((Int.tdiv v.nanos 1000000).emod (2 ^ 64)).toNat) % 2 ^ 64)
      if rxInfo.context.length ≠ 4 then .panic
      else
        let tmst := u32FromBeBytes rxInfo.context
        match txInfo.modulation with
        | none => .err ("modulation_info must not be None")
        | some m =>
          match m.parameters with
          | none => .err ("parameters must not be None")
          | some p =>
            match p with
            | .lrFhss => .err ("unsupported modulation")
            | .lora v =>
              .ok { time := time, tmms := tmms, tmst := tmst,
                    freq := (txInfo.frequency : ℚ) / 1000000,
                    chan := rxInfo.channel, rfch := rxInfo.rfChain,
                    stat := CRC.ok, modu := Modulation.loRa,
                    datr := DataRate.loRa v.spreadingFactor v.bandwidth,
                    codr := some (mapCodeRate v.codeRate),
                    rssi := rxInfo.rssi, lsnr := some rxInfo.snr,
                    size := up.phyPayload.length % 256,
                    data := base64Encode up.phyPayload }
            | .fsk v =>
              .ok { time := time, tmms := tmms, tmst := tmst,
                    freq := (txInfo.frequency : ℚ) / 1000000,
                    chan := rxInfo.channel, rfch := rxInfo.rfChain,
                    stat := CRC.ok, modu := Modulation.fsk,
                    datr := DataRate.fsk v.datarate,
                    codr := none,
                    rssi := rxInfo.rssi, lsnr := none,
                    size := up.phyPayload.length % 256,
                    data := base64Encode up.phyPayload }

/-- serde serialization of an `Option` field without
`skip_serializing_if`: `None` becomes JSON `null`, the key is always
emitted. -/
def optJson {α : Type} (o : Option α) (f : α → Json) : Json :=
  match o with
  | some v => f v
  | none => .null

/-- serde_json's number for an `i32`: non-negative values are stored as
`PosInt`, negative ones as `NegInt`. -/
def jnumOfInt (i : Int) : JNum :=
  if 0 ≤ i then .uint i.toNat else .int i

/-- `#[derive(Serialize)]` for `RXPK`: all 14 fields in declaration order;
the `Option` fields (`tmms`, `codr`, `lsnr`) serialize as `null` when
absent. -/
def RXPK.toJson (r : RXPK) : Json :=
  .obj [("time", .str (compactTimeFormat r.time)),
        ("tmms", optJson r.tmms (fun v => .num (.uint v))),
        ("tmst", .num (.uint r.tmst)),
        ("freq", .num (.float r.freq)),
        ("chan", .num (.uint r.chan)),
        ("rfch", .num (.uint r.rfch)),
        ("stat", r.stat.toJson),
        ("modu", r.modu.toJson),
        ("datr", r.datr.toJson),
        ("codr", optJson r.codr CodeRate.toJson),
        ("rssi", .num (jnumOfInt r.rssi)),
        ("lsnr", optJson r.lsnr (fun q => .num (.float q))),
        ("size", .num (.uint r.size)),
        ("data", .str r.data)]

/-! ### Gateway stats -/

/-- `common.Location` (consumed fields). -/
structure Location where
  latitude : ℚ
  longitude : ℚ
  altitude : ℚ
deriving DecidableEq, Repr

/-- `gw.GatewayStats` (consumed fields; `time` as epoch seconds). -/
structure GatewayStats where
  time : Option Int
  location : Option Location
  rxPacketsReceived : Nat
  rxPacketsReceivedOk : Nat
  txPacketsReceived : Nat
  txPacketsEmitted : Nat
deriving DecidableEq, Repr

/-- Rust `f64 as u32`: truncate toward zero, saturating at the `u32`
bounds. -/
def f64AsU32 (q : ℚ) : Nat :=
  if q ≤ 0 then 0 else min (Rat.floor q).toNat (2 ^ 32 - 1)

/-- `structs.rs` lines 320-343: the `stat` JSON model. -/
structure Stat where
  time : Int
  lati : ℚ
  long : ℚ
  alti : Nat
  rxnb : Nat
  rxok : Nat
  rxfw : Nat
  ackr : ℚ
  dwnb : Nat
  txnb : Nat
deriving DecidableEq, Repr

/-- `Stat::from_proto` (structs.rs lines 345-375): always succeeds;
`rxfw` and `ackr` start at 0 and are filled in by the forwarder at send
time. -/
def Stat.from_proto (now : Int) (stats : GatewayStats) : Except String Stat :=
  .ok { time := (match stats.time with
          | some v => v
          | none => now),
        lati := (match stats.location with
          | some v => v.latitude
          | none => 0),
        long := (match stats.location with
          | some v => v.longitude
          | none => 0),
        alti := (match stats.location with
          | some v => f64AsU32 v.altitude
          | none => 0),
        rxnb := stats.rxPacketsReceived,
        rxok := stats.rxPacketsReceivedOk,
        rxfw := 0,
        ackr := 0,
        dwnb := stats.txPacketsReceived,
        txnb := stats.txPacketsEmitted }

/-- `#[derive(Serialize)]` for `Stat`: all 10 fields in declaration
order. -/
def Stat.toJson (s : Stat) : Json :=
  .obj [("time", .str (expandedTimeFormat s.time)),
        ("lati", .num (.float s.lati)),
        ("long", .num (.float s.long)),
        ("alti", .num (.uint s.alti)),
        ("rxnb", .num (.uint s.rxnb)),
        ("rxok", .num (.uint s.rxok)),
        ("rxfw", .num (.uint s.rxfw)),
        ("ackr", .num (.float s.ackr)),
        ("dwnb", .num (.uint s.dwnb)),
        ("txnb", .num (.uint s.txnb))]

/-! ### PUSH_DATA / PULL_DATA -/

/-- `structs.rs` lines 175-179: the `PUSH_DATA` JSON body. -/
structure PushDataPayload where
  rxpk : List RXPK
  stat : Option Stat
deriving DecidableEq, Repr

/-- `#[derive(Serialize)]` for `PushDataPayload`: both fields always
emitted, `stat: None` as `null`. -/
def PushDataPayload.toJson (p : PushDataPayload) : Json :=
  .obj [("rxpk", .arr (p.rxpk.map RXPK.toJson)),
        ("stat", optJson p.stat Stat.toJson)]

/-- `structs.rs` lines 153-157: a `PUSH_DATA` frame. -/
structure PushData where
  random_token : Nat
  gateway_id : List Nat
  payload : PushDataPayload
deriving DecidableEq, Repr

/-- `structs.rs` lines 408-411: a `PULL_DATA` frame. -/
structure PullData where
  random_token : Nat
  gateway_id : List Nat
deriving DecidableEq, Repr

/-- `PullData::to_bytes` (structs.rs lines 413-423): version, big-endian
token, identifier `0x02`, 8-byte gateway id. -/
def PullData.to_bytes (p : PullData) : List Nat :=
  [PROTOCOL_VERSION, p.random_token / 256 % 256, p.random_token % 256, 2] ++ p.gateway_id

/-! ### TXPK and its translation to a downlink frame -/

/-- `gw.timing.Parameters` oneof: `Delay` carries a pbjson `Duration`
(seconds/nanos), `GpsEpoch` a `Duration` since the GPS epoch. -/
inductive TimingParameters where
  | immediately
  | delay (seconds : Int) (nanos : Int)
  | gpsEpoch (seconds : Nat) (nanos : Nat)
deriving DecidableEq, Repr

/-- `gw.Timing`. -/
structure GwTiming where
  parameters : Option TimingParameters
deriving DecidableEq, Repr

/-- `gw.DownlinkTxInfo` (fields set by `TXPK::to_proto`). -/
structure DownlinkTxInfo where
  frequency : Nat
  power : Int
  modulation : Option GwModulation
  board : Nat
  antenna : Nat
  timing : Option GwTiming
  context : List Nat
deriving DecidableEq, Repr

/-- `gw.DownlinkFrameItem`. -/
structure DownlinkFrameItem where
  txInfo : Option DownlinkTxInfo
  phyPayload : List Nat
deriving DecidableEq, Repr

/-- `gw.DownlinkFrame` (fields set by `TXPK::to_proto`). -/
structure DownlinkFrame where
  downlinkId : Nat
  gatewayId : String
  items : List DownlinkFrameItem
deriving DecidableEq, Repr

/-- Lowercase hex digit. -/
def hexDigit (n : Nat) : Char := "0123456789abcdef".toList.getD n '0'

/-- `hex::encode` of a byte list. -/
def hexEncode (bs : List Nat) : String :=
  String.mk ((bs.map (fun b => [hexDigit (b % 256 / 16), hexDigit (b % 16)])).flatten)

/-- `structs.rs` lines 501-533: the `txpk` JSON model. -/
structure TXPK where
  imme : Option Bool
  tmst : Option Nat
  tmms : Option Nat
  freq : ℚ
  rfch : Nat
  powe : Nat
  modu : Modulation
  datr : DataRate
  codr : Option CodeRate
  fdev : Option Nat
  ipol : Option Bool
  prea : Option Nat
  size : Nat
  data : String
  ncrc : Option Bool
deriving DecidableEq, Repr

/-- `TXPK::to_proto` (structs.rs lines 535-626).  The `DownlinkTxInfo`
literal evaluates its fields in declaration order, so a modulation /
datarate mismatch errors before the timing selection, which errors before
the base64 payload decode (performed while building the returned
`DownlinkFrame`; its error text is abbreviated here — the source formats
the base64 error into the message).  Timing priority: `imme == true` →
`Immediately`; else `tmst` present → `Delay{0s}`; else `tmms` present →
`GpsEpoch{tmms as a Duration}`; else error.  The context bytes come from
`tmst` alone. -/
def TXPK.to_proto (t : TXPK) (downlink_id : Nat) (gateway_id : List Nat) :
    Except String DownlinkFrame :=
  let params : Except String ModulationParameters :=
    match t.modu with
    | .loRa =>
      match t.datr with
      | .loRa sf bw =>
        .ok (.lora { bandwidth := bw, spreadingFactor := sf,
                     codeRate := (match t.codr with
                       | some .loRa4_5 => .cr45
                       | some .loRa4_6 => .cr46
                       | some .loRa4_7 => .cr47
                       | some .loRa4_8 => .cr48
                       | some .undefined => .crUndefined
                       | none => .crUndefined),
                     polarizationInversion := t.ipol.getD true })
      | _ => .error ("LoRa DataRate expected")
    | .fsk =>
      match t.datr with
      | .fsk v => .ok (.fsk { datarate := v, frequencyDeviation := t.fdev.getD 0 })
      | _ => .error ("FSK DataRate expected")
  match params with
  | .error e => .error e
  | .ok p =>
    let timing : Except String TimingParameters :=
      if t.imme.getD false then .ok .immediately
      else
        match t.tmst with
        | some _ => .ok (.delay 0 0)
        | none =>
          match t.tmms with
          | some v => .ok (.gpsEpoch (v / 1000) (v % 1000 * 1000000))
          | none => .error ("no timing information found")
    match timing with
    | .error e => .error e
    | .ok tp =>
      let tx_info : DownlinkTxInfo :=
        { frequency := f64AsU32 (t.freq * 1000000),
          power := (t.powe : Int),
          modulation := some { parameters := some p },
          board := 0,
          antenna := 0,
          timing := some { parameters := some tp },
          context := (match t.tmst with
            | some v => u32ToBeBytes v
            | none => []) }
      match base64Decode t.data with
      | none => .error ("base64 decode payload error")
      | some pl =>
        .ok { downlinkId := downlink_id,
              gatewayId := hexEncode gateway_id,
              items := [{ txInfo := some tx_info, phyPayload := pl }] }

/-- Timing parameters of the (single-item) translated downlink frame. -/
def timingOf : Except String DownlinkFrame → Option TimingParameters
  | .ok f => (f.items.head?.bind DownlinkFrameItem.txInfo).bind
      (fun ti => ti.timing.bind GwTiming.parameters)
  | .error _ => none

/-- Context bytes of the (single-item) translated downlink frame. -/
def contextOf : Except String DownlinkFrame → Option (List Nat)
  | .ok f => (f.items.head?.bind DownlinkFrameItem.txInfo).map DownlinkTxInfo.context
  | .error _ => none

/-- The modulation and datarate of a `TXPK` agree (LoRa with LoRa, FSK
with FSK) — the condition under which `to_proto` does not fail on its
modulation match. -/
def modulationConsistent (t : TXPK) : Bool :=
  match t.modu, t.datr with
  | .loRa, .loRa _ _ => true
  | .fsk, .fsk _ => true
  | _, _ => false

/-! ### Forwarder state machine (src/forwarder.rs) -/

/-- `forwarder.rs` lines 17-34: the shared per-server state (socket
handles omitted; the mutex-protected scalars become plain fields, tokens
kept below 2^16 and counters below 2^32 by construction). -/
structure State where
  keepalive_max_failures : Nat
  forward_crc_ok : Bool
  forward_crc_invalid : Bool
  forward_crc_missing : Bool
  gateway_id : List Nat
  push_data_token : Nat
  push_data_sent : Nat
  push_data_acked : Nat
  pull_data_token : Nat
  pull_data_token_acked : Nat
  rxfw : Nat
deriving DecidableEq, Repr

/-- `signals::Signal` as used by the keepalive loop. -/
inductive Signal where
  | stop
deriving DecidableEq, Repr

/-- Outcome of one keepalive iteration: either the loop broadcast a signal
and returned, or it continues with the updated state, the updated local
`missed_acks`, and the `PULL_DATA` bytes it sent. -/
inductive PullTickResult where
  | stopped (sig : Signal)
  | continued (st : State) (missed_acks : Nat) (sent : List Nat)
deriving DecidableEq, Repr

/-- One iteration of `pull_data_loop` (forwarder.rs lines 192-237):
compare the tokens and reset or increment the local `missed_acks`; if
`keepalive_max_failures` is non-zero and exceeded, broadcast `Stop` and
return; otherwise store a fresh random token (`new_token`, reduced to
`u16`), send the `PULL_DATA`, and sleep until the next tick. -/
def pull_data_tick (st : State) (missed_acks : Nat) (new_token : Nat) : PullTickResult :=
  let missed := if st.pull_data_token = st.pull_data_token_acked then 0 else missed_acks + 1
  if st.keepalive_max_failures ≠ 0 ∧ missed > st.keepalive_max_failures then
    .stopped .stop
  else
    let token := new_token % 65536
    let st' := { st with pull_data_token := token }
    .continued st' missed
      (PullData.to_bytes { random_token := token, gateway_id := st.gateway_id })

/-- `handle_pull_ack` (forwarder.rs lines 440-453): decode; on success set
`pull_data_token_acked` to the received token unconditionally (the
comparison against the current `pull_data_token` only selects a log
line). -/
def handle_pull_ack (st : State) (data : List Nat) : State × Except String Unit :=
  match PullAck.from_bytes data with
  | .error e => (st, .error e)
  | .ok ack => ({ st with pull_data_token_acked := ack.random_token }, .ok ())

/-- `events_stats` (forwarder.rs lines 335-376): build the `stat`, fill
`rxfw` by get-and-reset, compute `ackr` from get-and-reset of both push
counters when the denominator is non-zero, send the `PUSH_DATA` with a
fresh random token, then increment `push_data_sent` for the datagram just
sent.  Returns the post-handler state and the emitted frame (`none` on a
translation error — unreachable, since `Stat::from_proto` always
succeeds).  The f32 `ackr` arithmetic is modelled exactly over `ℚ`. -/
def events_stats (st : State) (stats : GatewayStats) (now : Int) (new_token : Nat) :
    State × Option PushData :=
  match Stat.from_proto now stats with
  | .error _ => (st, none)
  | .ok stat0 =>
    let stat1 := { stat0 with rxfw := st.rxfw }
    let st1 := { st with rxfw := 0 }
    let pd_sent := st1.push_data_sent
    let st2 := { st1 with push_data_sent := 0 }
    let pd_acked := st2.push_data_acked
    let st3 := { st2 with push_data_acked := 0 }
    let stat2 :=
      if pd_sent ≠ 0 then { stat1 with ackr := (pd_acked : ℚ) / (pd_sent : ℚ) * 100 }
      else stat1
    let token := new_token % 65536
    let st4 := { st3 with push_data_token := token }
    let pd : PushData := { random_token := token, gateway_id := st4.gateway_id,
                           payload := { rxpk := [], stat := some stat2 } }
    let st5 := { st4 with push_data_sent := st4.push_data_sent + 1 }
    (st5, some pd)

/-! ### Concrete fixtures (mirroring the values of the repository's tests) -/

/-- LoRa uplink modulation info of the repository's `test_push_data_rxpk_lora`. -/
def loraModulationTest : Option GwModulation :=
  some { parameters := some (.lora { bandwidth := 125000, spreadingFactor := 12,
                                     codeRate := .cr45, polarizationInversion := true }) }

/-- Uplink tx info fixture. -/
def txInfoLoraTest : UplinkTxInfo := { frequency := 868300000, modulation := loraModulationTest }

/-- Uplink rx info fixture whose CRC status is `BadCrc`. -/
def rxInfoBadCrc : UplinkRxInfo :=
  { time := some 0, timeSinceGpsEpoch := some { seconds := 1, nanos := 0 },
    rssi := -160, snr := 11 / 2, channel := 1, rfChain := 1,
    context := [1, 2, 3, 4], crcStatus := .badCrc }

/-- An uplink whose reception failed its CRC check. -/
def upBadCrc : UplinkFrame :=
  { rxInfo := some rxInfoBadCrc, txInfo := some txInfoLoraTest, phyPayload := [1, 2, 3] }

/-- The translation of `upBadCrc`. -/
def rxpkBadCrcResult : RXPK :=
  { time := 0, tmms := some 1000, tmst := 16909060,
    freq := ((868300000 : Nat) : ℚ) / 1000000,
    chan := 1, rfch := 1, stat := .ok, modu := .loRa,
    datr := .loRa 12 125000, codr := some .loRa4_5, rssi := -160,
    lsnr := some (11 / 2), size := 3, data := "AQID" }

/-- An rxpk with every optional field absent (the repository's FSK test
serializes exactly such a value and asserts the emitted nulls). -/
def rxpkNoOptionals : RXPK :=
  { time := 0, tmms := none, tmst := 16909060, freq := 8683 / 10,
    chan := 1, rfch := 2, stat := .ok, modu := .fsk, datr := .fsk 50000,
    codr := none, rssi := -160, lsnr := none, size := 3, data := "AQID" }

/-- A `PUSH_DATA` payload without a `stat` object. -/
def payloadNoStat : PushDataPayload := { rxpk := [rxpkNoOptionals], stat := none }

/-- Uplink rx info fixture whose context holds 3 bytes instead of 4. -/
def rxInfoShortContext : UplinkRxInfo :=
  { time := some 0, timeSinceGpsEpoch := none,
    rssi := -120, snr := 7, channel := 0, rfChain := 0,
    context := [1, 2, 3], crcStatus := .crcOk }

/-- An uplink with both sub-records present but a short context. -/
def upShortContext : UplinkFrame :=
  { rxInfo := some rxInfoShortContext, txInfo := some txInfoLoraTest, phyPayload := [] }

/-- The `txpk` of the repository's `test_pull_resp_lora_delay` (payload
shortened to `AQID`). -/
def txpkDelayTest : TXPK :=
  { imme := none, tmst := some 5000000, tmms := none, freq := 864123456 / 1000000,
    rfch := 0, powe := 14, modu := .loRa, datr := .loRa 11 125000,
    codr := some .loRa4_5, fdev := none, ipol := some false, prea := none,
    size := 32, data := "AQID", ncrc := none }

/-- A forwarder state fixture with `keepalive_max_failures = 0`. -/
def stateTest : State :=
  { keepalive_max_failures := 0, forward_crc_ok := true, forward_crc_invalid := false,
    forward_crc_missing := false, gateway_id := [1, 2, 3, 4, 5, 6, 7, 8],
    push_data_token := 0, push_data_sent := 0, push_data_acked := 0,
    pull_data_token := 0, pull_data_token_acked := 0, rxfw := 0 }

/-- A state with non-trivial counters, used to exhibit the post-flush
value of `push_data_sent`. -/
def stateBusy : State :=
  { keepalive_max_failures := 3, forward_crc_ok := true, forward_crc_invalid := false,
    forward_crc_missing := false, gateway_id := [1, 2, 3, 4, 5, 6, 7, 8],
    push_data_token := 10, push_data_sent := 5, push_data_acked := 3,
    pull_data_token := 20, pull_data_token_acked := 20, rxfw := 7 }

/-- Gateway stats fixture of the repository's `test_push_data_stat`. -/
def gatewayStatsTest : GatewayStats :=
  { time := some 0,
    location := some { latitude := 1123 / 1000, longitude := 2123 / 1000,
                       altitude := 3123 / 1000 },
    rxPacketsReceived := 10, rxPacketsReceivedOk := 5,
    txPacketsReceived := 14, txPacketsEmitted := 7 }

/-- Sanity anchor against `test_push_data_rxpk_lora`: the translated rxpk
matches field by field (`tmms = 1000`, `tmst = 16909060`, etc.). -/
example : RXPK.from_proto 99 upBadCrc = .ok rxpkBadCrcResult := by rfl

/-- Sanity anchor: base64 and time formatting agree with the repository's
expected strings. -/
example : base64Encode [1, 2, 3] = "AQID" := by decide

example : compactTimeFormat 0 = "1970-01-01T00:00:00+00:00" := by decide

example : expandedTimeFormat 0 = "1970-01-01 00:00:00 UTC" := by decide

example : base64Decode "AQID" = some [1, 2, 3] := by decide

example : u32ToBeBytes 5000000 = [0, 76, 75, 64] := by decide

/-! ### Claim theorems -/

/-- C1 (counterexample): an uplink received with CRC status `BadCrc` still
translates to an rxpk whose `stat` serializes as the number 1 — not -1 as
the claim requires — because `RXPK::from_proto` sets `CRC::OK`
unconditionally and never reads the uplink's CRC status enum. -/
theorem c1_crc_stat_counterexample :
    rxInfoBadCrc.crcStatus = CrcStatus.badCrc ∧
    RXPK.from_proto 0 upBadCrc = .ok rxpkBadCrcResult ∧
    Json.lookupKey (RXPK.toJson rxpkBadCrcResult) "stat" = some (Json.num (JNum.uint 1)) ∧
    Json.num (JNum.uint 1) ≠ Json.num (JNum.int (-1)) := by
  refine ⟨rfl, rfl, rfl, ?_⟩
  simp

/-- C1 (amended): for every uplink that translates successfully — whatever
its CRC status — the rxpk `stat` field is `CRC::OK` (the enum's only
variant) and serializes as the number 1; -1 and 0 are never emitted. -/
theorem c1_crc_stat_always_one (now : Int) (up : UplinkFrame) (r : RXPK)
    (h : RXPK.from_proto now up = .ok r) :
    r.stat = CRC.ok ∧
    Json.lookupKey (RXPK.toJson r) "stat" = some (Json.num (JNum.uint 1)) := by
  have hs : r.stat = CRC.ok := by cases r.stat; rfl
  refine ⟨hs, ?_⟩
  simp [RXPK.toJson, Json.lookupKey, hs, CRC.toJson, List.lookup]

/-- C1 witness: the amended theorem applied to the bad-CRC fixture. -/
theorem c1_crc_stat_always_one_witness :
    rxpkBadCrcResult.stat = CRC.ok ∧
    Json.lookupKey (RXPK.toJson rxpkBadCrcResult) "stat" = some (Json.num (JNum.uint 1)) :=
  c1_crc_stat_always_one 0 upBadCrc rxpkBadCrcResult rfl

/-- C2 (counterexample): an rxpk with `tmms`, `codr` and `lsnr` absent and
a payload with `stat` absent serialize with those keys present and bound
to JSON `null` (as the repository's own tests assert), contradicting the
claim that no key is emitted. -/
theorem c2_null_emission_counterexample :
    rxpkNoOptionals.tmms = none ∧ rxpkNoOptionals.codr = none ∧
    rxpkNoOptionals.lsnr = none ∧ payloadNoStat.stat = none ∧
    Json.lookupKey (RXPK.toJson rxpkNoOptionals) "tmms" = some Json.null ∧
    Json.lookupKey (RXPK.toJson rxpkNoOptionals) "codr" = some Json.null ∧
    Json.lookupKey (RXPK.toJson rxpkNoOptionals) "lsnr" = some Json.null ∧
    Json.lookupKey (PushDataPayload.toJson payloadNoStat) "stat" = some Json.null :=
  ⟨rfl, rfl, rfl, rfl, rfl, rfl, rfl, rfl⟩

/-- C2 (amended): the serializers always emit every declared key in
declaration order; an absent `tmms`/`codr`/`lsnr`/`stat` is emitted as a
key bound to JSON `null` (serde's default `Option` serialization, no
`skip_serializing_if`). -/
theorem c2_absent_optionals_serialize_null (r : RXPK) (p : PushDataPayload) :
    (RXPK.toJson r).objKeys =
      ["time", "tmms", "tmst", "freq", "chan", "rfch", "stat", "modu", "datr", "codr",
       "rssi", "lsnr", "size", "data"] ∧
    (PushDataPayload.toJson p).objKeys = ["rxpk", "stat"] ∧
    (r.tmms = none → Json.lookupKey (RXPK.toJson r) "tmms" = some Json.null) ∧
    (r.codr = none → Json.lookupKey (RXPK.toJson r) "codr" = some Json.null) ∧
    (r.lsnr = none → Json.lookupKey (RXPK.toJson r) "lsnr" = some Json.null) ∧
    (p.stat = none → Json.lookupKey (PushDataPayload.toJson p) "stat" = some Json.null) := by
  refine ⟨rfl, rfl, fun h => ?_, fun h => ?_, fun h => ?_, fun h => ?_⟩ <;>
    simp [RXPK.toJson, PushDataPayload.toJson, Json.lookupKey, List.lookup, h, optJson]

/-- C2 witness: the amended theorem applied to the all-optionals-absent
fixtures. -/
theorem c2_absent_optionals_serialize_null_witness :
    Json.lookupKey (RXPK.toJson rxpkNoOptionals) "tmms" = some Json.null ∧
    Json.lookupKey (PushDataPayload.toJson payloadNoStat) "stat" = some Json.null :=
  ⟨(c2_absent_optionals_serialize_null rxpkNoOptionals payloadNoStat).2.2.1 rfl,
   (c2_absent_optionals_serialize_null rxpkNoOptionals payloadNoStat).2.2.2.2.2 rfl⟩

/-- C10: whenever both `rx_info` and `tx_info` are present but the context
does not hold exactly 4 bytes, `RXPK::from_proto` panics (the unchecked
`copy_from_slice` asserts equal slice lengths) instead of returning an
error. -/
theorem c10_short_context_panics (now : Int) (up : UplinkFrame) (ri : UplinkRxInfo)
    (ti : UplinkTxInfo) (h1 : up.rxInfo = some ri) (h2 : up.txInfo = some ti)
    (h3 : ri.context.length ≠ 4) :
    RXPK.from_proto now up = .panic := by
  simp [RXPK.from_proto, h1, h2, h3]

/-- C10 witness: the panic at a concrete uplink with a 3-byte context. -/
theorem c10_short_context_panics_witness : RXPK.from_proto 0 upShortContext = .panic :=
  c10_short_context_panics 0 upShortContext rxInfoShortContext txInfoLoraTest rfl rfl
    (by decide)

/-- C4: one keepalive tick resets `missed_acks` to 0 when
`pull_data_token = pull_data_token_acked` and increments it by exactly 1
otherwise; the loop broadcasts `Stop` and exits iff
`keepalive_max_failures` is non-zero and the updated `missed_acks` exceeds
it; with `keepalive_max_failures = 0` it never stops on this condition. -/
theorem c4_keepalive_tick (st : State) (missed_acks new_token : Nat) :
    pull_data_tick st missed_acks new_token =
      (if st.keepalive_max_failures ≠ 0 ∧
          (if st.pull_data_token = st.pull_data_token_acked then 0 else missed_acks + 1) >
            st.keepalive_max_failures then
        PullTickResult.stopped Signal.stop
      else
        PullTickResult.continued { st with pull_data_token := new_token % 65536 }
          (if st.pull_data_token = st.pull_data_token_acked then 0 else missed_acks + 1)
          (PullData.to_bytes
            { random_token := new_token % 65536, gateway_id := st.gateway_id })) ∧
    (st.keepalive_max_failures = 0 →
      pull_data_tick st missed_acks new_token ≠ PullTickResult.stopped Signal.stop) := by
  constructor
  · rfl
  · intro h
    simp [pull_data_tick, h]

/-- C4 witness: with `keepalive_max_failures = 0` the tick does not
stop. -/
theorem c4_keepalive_tick_witness :
    pull_data_tick stateTest 0 0 ≠ PullTickResult.stopped Signal.stop :=
  (c4_keepalive_tick stateTest 0 0).2 rfl

/-- C5: for every successfully decoded PULL_ACK, `handle_pull_ack`
overwrites `pull_data_token_acked` with the received token — with no
condition relating it to the current `pull_data_token` — and modifies no
other state field. -/
theorem c5_pull_ack_unconditional (st : State) (data : List Nat) (t : Nat)
    (h : PullAck.from_bytes data = .ok ⟨t⟩) :
    handle_pull_ack st data = ({ st with pull_data_token_acked := t }, .ok ()) ∧
    (handle_pull_ack st data).1.pull_data_token = st.pull_data_token ∧
    (handle_pull_ack st data).1.push_data_token = st.push_data_token ∧
    (handle_pull_ack st data).1.push_data_sent = st.push_data_sent ∧
    (handle_pull_ack st data).1.push_data_acked = st.push_data_acked ∧
    (handle_pull_ack st data).1.rxfw = st.rxfw ∧
    (handle_pull_ack st data).1.gateway_id = st.gateway_id ∧
    (handle_pull_ack st data).1.keepalive_max_failures = st.keepalive_max_failures := by
  refine ⟨?_, ?_, ?_, ?_, ?_, ?_, ?_, ?_⟩ <;> simp [handle_pull_ack, h]

/-- C5 witness: a PULL_ACK carrying token 77 against a state whose
outstanding token is 0 still overwrites the acked token. -/
theorem c5_pull_ack_unconditional_witness :
    handle_pull_ack stateTest [2, 0, 77, 4] =
      ({ stateTest with pull_data_token_acked := 77 }, .ok ()) :=
  (c5_pull_ack_unconditional stateTest [2, 0, 77, 4] 77 rfl).1

/-- C9 (counterexample): after handling a gateway-stats event,
`push_data_sent` is 1, not 0 — the handler increments it for the stats
`PUSH_DATA` it just sent (forwarder.rs line 372). -/
theorem c9_stats_flush_counterexample :
    (events_stats stateBusy gatewayStatsTest 0 0).1.push_data_sent = 1 ∧ (1 : Nat) ≠ 0 := by
  exact ⟨rfl, by decide⟩

/-- C9 (amended): after a stats flush `push_data_acked` and `rxfw` are 0
and `push_data_sent` is 1 (the stats datagram itself is counted as sent);
the emitted stat carries the pre-flush `rxfw`, and its `ackr` equals
`push_data_acked / push_data_sent * 100` of the pre-flush counters when
the pre-flush `push_data_sent` is non-zero, else 0. -/
theorem c9_stats_flush (st : State) (stats : GatewayStats) (now : Int) (new_token : Nat) :
    (events_stats st stats now new_token).1.push_data_acked = 0 ∧
    (events_stats st stats now new_token).1.rxfw = 0 ∧
    (events_stats st stats now new_token).1.push_data_sent = 1 ∧
    ((events_stats st stats now new_token).2.bind (fun pd => pd.payload.stat)).map Stat.rxfw
      = some st.rxfw ∧
    ((events_stats st stats now new_token).2.bind (fun pd => pd.payload.stat)).map Stat.ackr
      = some (if st.push_data_sent ≠ 0 then
          (st.push_data_acked : ℚ) / (st.push_data_sent : ℚ) * 100
        else 0) := by
  by_cases hs : st.push_data_sent = 0 <;>
    simp [events_stats, Stat.from_proto, hs]

/-- C3: with a consistent modulation/datarate pair and a decodable base64
payload, the timing of the translated downlink follows the priority order
`imme == true` → `Immediately`; else `tmst` present → `Delay{0s}` with the
4 big-endian `tmst` bytes as the context; else `tmms` present →
`GpsEpoch{tmms ms}`; else `to_proto` fails with "no timing information
found". -/
theorem c3_timing_priority (t : TXPK) (d : Nat) (g : List Nat)
    (hm : modulationConsistent t = true)
    (hd : (base64Decode t.data).isSome = true) :
    (t.imme.getD false = true → timingOf (t.to_proto d g) = some .immediately) ∧
    (∀ v, t.imme.getD false = false → t.tmst = some v →
      timingOf (t.to_proto d g) = some (.delay 0 0) ∧
      contextOf (t.to_proto d g) = some (u32ToBeBytes v)) ∧
    (∀ v, t.imme.getD false = false → t.tmst = none → t.tmms = some v →
      timingOf (t.to_proto d g) = some (.gpsEpoch (v / 1000) (v % 1000 * 1000000))) ∧
    (t.imme.getD false = false → t.tmst = none → t.tmms = none →
      t.to_proto d g = .error ("no timing information found")) := by
  obtain ⟨pl, hpl⟩ := Option.isSome_iff_exists.mp hd
  refine ⟨?_, ?_, ?_, ?_⟩
  · intro h1
    cases hmo : t.modu <;> cases hdr : t.datr <;>
      simp [modulationConsistent, hmo, hdr] at hm <;>
      simp [TXPK.to_proto, hmo, hdr, h1, hpl, timingOf]
  · intro v h1 h2
    cases hmo : t.modu <;> cases hdr : t.datr <;>
      simp [modulationConsistent, hmo, hdr] at hm <;>
      simp [TXPK.to_proto, hmo, hdr, h1, h2, hpl, timingOf, contextOf]
  · intro v h1 h2 h3
    cases hmo : t.modu <;> cases hdr : t.datr <;>
      simp [modulationConsistent, hmo, hdr] at hm <;>
      simp [TXPK.to_proto, hmo, hdr, h1, h2, h3, hpl, timingOf]
  · intro h1 h2 h3
    cases hmo : t.modu <;> cases hdr : t.datr <;>
      simp [modulationConsistent, hmo, hdr] at hm <;>
      simp [TXPK.to_proto, hmo, hdr, h1, h2, h3]

/-- C3 witness: the delay-timing branch at the repository's LoRa delay
fixture (`tmst = 5000000`). -/
theorem c3_timing_priority_witness :
    timingOf (TXPK.to_proto txpkDelayTest 0 [1, 2, 3, 4, 5, 6, 7, 8]) =
      some (TimingParameters.delay 0 0) ∧
    contextOf (TXPK.to_proto txpkDelayTest 0 [1, 2, 3, 4, 5, 6, 7, 8]) =
      some (u32ToBeBytes 5000000) :=
  (c3_timing_priority txpkDelayTest 0 [1, 2, 3, 4, 5, 6, 7, 8] (by decide)
    (by decide)).2.1 5000000 rfl rfl

/-- C6: `PushAck::from_bytes` and `PullAck::from_bytes` fail exactly when
the length is not 4, byte 0 is not 0x02, or byte 3 is not the expected
identifier (0x01 and 0x04 respectively); on the well-formed frames the
decoded token is the big-endian `u16` of bytes 1..3, and decoding
round-trips for every `u16` token. -/
theorem c6_ack_decoding :
    (∀ b : List Nat,
      ((PushAck.from_bytes b).isOk = false ↔
        b.length ≠ 4 ∨ b.getD 0 0 ≠ 2 ∨ b.getD 3 0 ≠ 1) ∧
      (b.length = 4 → b.getD 0 0 = 2 → b.getD 3 0 = 1 →
        PushAck.from_bytes b = .ok ⟨b.getD 1 0 * 256 + b.getD 2 0⟩) ∧
      ((PullAck.from_bytes b).isOk = false ↔
        b.length ≠ 4 ∨ b.getD 0 0 ≠ 2 ∨ b.getD 3 0 ≠ 4) ∧
      (b.length = 4 → b.getD 0 0 = 2 → b.getD 3 0 = 4 →
        PullAck.from_bytes b = .ok ⟨b.getD 1 0 * 256 + b.getD 2 0⟩)) ∧
    (∀ tk : Nat, tk < 65536 →
      PushAck.from_bytes (ackFrame 1 tk) = .ok ⟨tk⟩ ∧
      PullAck.from_bytes (ackFrame 4 tk) = .ok ⟨tk⟩) := by
  constructor
  · intro b
    refine ⟨?_, ?_, ?_, ?_⟩
    · unfold PushAck.from_bytes PROTOCOL_VERSION
      split_ifs <;> simp_all [Except.isOk, Except.toBool]
    · intro h1 h2 h3
      unfold PushAck.from_bytes PROTOCOL_VERSION
      rw [if_neg (by simpa using h1), if_neg (by simpa using h2),
        if_neg (by simpa using h3)]
    · unfold PullAck.from_bytes PROTOCOL_VERSION
      split_ifs <;> simp_all [Except.isOk, Except.toBool]
    · intro h1 h2 h3
      unfold PullAck.from_bytes PROTOCOL_VERSION
      rw [if_neg (by simpa using h1), if_neg (by simpa using h2),
        if_neg (by simpa using h3)]
  · intro tk htk
    constructor <;>
      · simp [ackFrame, PushAck.from_bytes, PullAck.from_bytes, PROTOCOL_VERSION]
        omega

/-- C6 witness: round-trip at token 300 for both acknowledgement kinds. -/
theorem c6_ack_decoding_witness :
    PushAck.from_bytes (ackFrame 1 300) = .ok ⟨300⟩ ∧
    PullAck.from_bytes (ackFrame 4 300) = .ok ⟨300⟩ :=
  c6_ack_decoding.2 300 (by decide)

/-- C7: for every `sf ∈ [5..12]` and `bw ∈ {125000, 250000, 500000}` the
LoRa datarate serializes as `SF{sf}BW{bw/1000}` and deserializing that
string returns the original datarate; a string whose split by alphabetic
characters does not give exactly 5 segments fails to deserialize. -/
theorem c7_datarate_roundtrip :
    (∀ sf bw : Nat, 5 ≤ sf → sf ≤ 12 → (bw = 125000 ∨ bw = 250000 ∨ bw = 500000) →
      DataRate.toJson (.loRa sf bw) =
        .str ("SF" ++ toString sf ++ "BW" ++ toString (bw / 1000)) ∧
      DataRate.deserialize (DataRate.toJson (.loRa sf bw)) = .ok (.loRa sf bw)) ∧
    (∀ v : String, (splitAlphabetic v.toList).length ≠ 5 →
      DataRate.deserialize (.str v) = .err ("invalid datarate string")) := by
  constructor
  · intro sf bw h5 h12 hbw
    refine ⟨rfl, ?_⟩
    interval_cases sf <;> rcases hbw with rfl | rfl | rfl <;> decide
  · intro v hv
    simp [String.toList] at hv
    simp [DataRate.deserialize, hv]

/-- C7 witness: round-trip at `SF12BW125` and failure of a 3-segment
string. -/
theorem c7_datarate_roundtrip_witness :
    DataRate.deserialize (DataRate.toJson (.loRa 12 125000)) = .ok (.loRa 12 125000) ∧
    DataRate.deserialize (.str ("SF")) = .err ("invalid datarate string") :=
  ⟨(c7_datarate_roundtrip.1 12 125000 (by decide) (by decide) (Or.inl rfl)).2,
   c7_datarate_roundtrip.2 "SF" (by decide)⟩

/-- C8 (counterexample): a negative or fractional JSON number in the
datarate position panics (`as_u64().unwrap()` on `None`) instead of
returning an FSK datarate; only `u64`-representable numbers are truncated
to 32 bits. -/
theorem c8_fsk_number_counterexample :
    DataRate.deserialize (.num (.int (-1))) = .panic ∧
    DataRate.deserialize (.num (.float (3 / 2))) = .panic ∧
    DataRate.deserialize (.num (.uint (2 ^ 32 + 7))) = .ok (.fsk 7) := by
  refine ⟨rfl, rfl, by decide⟩

/-- C8 (amended): every JSON number stored as a `u64` (non-negative
integer below 2^64) deserializes without panicking to an FSK datarate
equal to the number truncated to 32 bits; negative and fractional numbers
panic. -/
theorem c8_fsk_number_truncates (n : Nat) (h : n < 2 ^ 64) :
    DataRate.deserialize (.num (.uint n)) = .ok (.fsk (n % 2 ^ 32)) := by
  simp [DataRate.deserialize, JNum.asU64]

/-- C8 witness: truncation of 2^32 + 7. -/
theorem c8_fsk_number_truncates_witness :
    DataRate.deserialize (.num (.uint 4294967303)) = .ok (.fsk 7) :=
  c8_fsk_number_truncates 4294967303 (by decide)

end ChirpstackUdpForwarder
